import Mathlib

/-!
# spanner-deleter: the per-table deleter of `deleter.go`

A shallow embedding of `deleter.go` (package `main`): the `status` enumeration,
the `deleter` struct, the statement builders `getDeleteStatementString` and
`getStatementStringSuffix`, the state-changing methods `deleteRows`,
`parentDeletionStarted` and `updateRowCount`, and the polling loop of
`startRowCountUpdater`.

Go strings are modelled by `String`, `[]string` by `List String`, `int32` and
`int64` by `Int`, `uint64` by `Nat` (the conversion `uint64(count)` is taken
modulo `2^64`). The Spanner client is external: a method that calls it takes the
reply of the database as an argument and reports the calls it issued.
-/

namespace fmt

/-- Rendering of the operands that are left over when the format string is
exhausted, as Go prints them inside `%!(EXTRA ...)`. -/
def extraOperands : List String → List Char
  | [] => []
  | [a] => "string=".data ++ a.data
  | a :: b :: rest => "string=".data ++ a.data ++ ", ".data ++ extraOperands (b :: rest)

/-- Expansion of a format string over string operands, character by character.
The verbs interpreted are `%s` (the next operand, copied verbatim) and `%%`
(a percent sign), the only ones the format strings of `deleter.go` contain; a
`%s` without an operand prints `%!s(MISSING)` and operands left over are
reported after the text. -/
def expand : List Char → List String → List Char
  | [], [] => []
  | [], a :: args => "%!(EXTRA ".data ++ extraOperands (a :: args) ++ [')']
  | '%' :: 's' :: rest, a :: args => a.data ++ expand rest args
  | '%' :: 's' :: rest, [] => "%!s(MISSING)".data ++ expand rest []
  | '%' :: '%' :: rest, args => '%' :: expand rest args
  | c :: rest, args => c :: expand rest args

/-- Go's `fmt.Sprintf` on string operands. -/
def Sprintf (format : String) (args : List String) : String :=
  ⟨expand format.data args⟩

end fmt

namespace strings

/-- The tail loop of `strings.Join`: every further element is written after a
copy of the separator. -/
def joinRest (sep : String) : List String → String
  | [] => ""
  | s :: rest => sep ++ s ++ joinRest sep rest

/-- Go's `strings.Join`: the empty string for no element, otherwise the first
element followed by each further element preceded by the separator. -/
def Join (elems : List String) (sep : String) : String :=
  match elems with
  | [] => ""
  | s :: rest => s ++ joinRest sep rest

end strings

namespace SpannerDeleter

/-- The delete status (`type status int`, constants numbered by `iota`). -/
inductive status where
  | statusAnalyzing
  | statusWaiting
  | statusDeleting
  | statusCascadeDeleting
  | statusCompleted
  deriving DecidableEq, Repr

/-- A Go `error` value returned by the Spanner client. -/
structure error where
  message : String
  deriving DecidableEq, Repr

/-- The `deleter` struct without its `client` pointer, which is the external
database. -/
structure deleter where
  tableName : String
  status : status
  column : String
  columnValues : List String
  lower : String
  upper : String
  priority : Int
  totalRows : Nat
  remainedRows : Nat
  deriving DecidableEq, Repr

/-- A request sent to the Spanner client: the statement text and the request
priority of its query options. -/
inductive Call where
  | PartitionedUpdateWithOptions (stmt : String) (priority : Int)
  | QueryWithOptions (stmt : String) (priority : Int)
  deriving DecidableEq, Repr

/-- What a method leaves behind: the deleter after the call, the requests it
sent to the client, and the returned error (`none` for `nil`). -/
structure Outcome where
  d : deleter
  calls : List Call
  ret : Option error
  deriving DecidableEq, Repr

/-- The conversion `uint64(count)` of an `int64`. -/
def uint64 (count : Int) : Nat :=
  (count % 2 ^ 64).toNat

/-- The method `getStatementStringSuffix`. -/
def getStatementStringSuffix (d : deleter) : String :=
  if d.columnValues.length > 0 then
    fmt.Sprintf " WHERE %s IN ('%s')" [d.column, strings.Join d.columnValues "','"]
  else
    let hasLower := d.column ≠ "" ∧ d.lower ≠ ""
    let hasUpper := d.column ≠ "" ∧ d.upper ≠ ""
    if hasLower ∧ hasUpper then
      fmt.Sprintf " WHERE %s > '%s' AND %s < '%s'" [d.column, d.lower, d.column, d.upper]
    else if hasLower then
      fmt.Sprintf " WHERE %s > '%s'" [d.column, d.lower]
    else if hasUpper then
      fmt.Sprintf " WHERE %s < '%s'" [d.column, d.upper]
    else
      ""

/-- The method `getDeleteStatementString`. -/
def getDeleteStatementString (d : deleter) : String :=
  let stmtStr := fmt.Sprintf "DELETE FROM `%s`" [d.tableName]
  stmtStr ++ getStatementStringSuffix d

/-- The method `deleteRows`; `reply` is the error returned by
`PartitionedUpdateWithOptions` (`none` for `nil`). -/
def deleteRows (d : deleter) (reply : Option error) : Outcome :=
  let d1 := { d with status := status.statusDeleting }
  let stmt := getDeleteStatementString d1
  { d := d1, calls := [Call.PartitionedUpdateWithOptions stmt d1.priority], ret := reply }

/-- The method `parentDeletionStarted`. -/
def parentDeletionStarted (d : deleter) : deleter :=
  { d with status := status.statusCascadeDeleting }

/-- The count statement built on the first line of `updateRowCount`. -/
def countStatementString (d : deleter) : String :=
  fmt.Sprintf "SELECT COUNT(*) as count FROM `%s` %s" [d.tableName, getStatementStringSuffix d]

/-- The method `updateRowCount`; `reply` is what the stale read gives back: the
error of the query, or the value scanned from the column `count`. -/
def updateRowCount (d : deleter) (reply : Except error Int) : Outcome :=
  let call := Call.QueryWithOptions (countStatementString d) d.priority
  match reply with
  | Except.error err => { d := d, calls := [call], ret := some err }
  | Except.ok count =>
    let d1 := if d.totalRows = 0 then { d with totalRows := uint64 count } else d
    let d2 := { d1 with remainedRows := uint64 count }
    let d3 :=
      if count = 0 then { d2 with status := status.statusCompleted }
      else if d2.status = status.statusAnalyzing then { d2 with status := status.statusWaiting }
      else d2
    { d := d3, calls := [call], ret := none }

/-- One operation on a deleter together with the reply of the database. -/
inductive Op where
  | updateRowCount (reply : Except error Int)
  | deleteRows (reply : Option error)
  | parentDeletionStarted
  deriving Repr

/-- The deleter after one operation. -/
def step (d : deleter) : Op → deleter
  | Op.updateRowCount reply => (updateRowCount d reply).d
  | Op.deleteRows reply => (deleteRows d reply).d
  | Op.parentDeletionStarted => parentDeletionStarted d

/-- The deleter after a finite sequence of operations, run in order. -/
def run (d : deleter) (ops : List Op) : deleter :=
  ops.foldl step d

/-- A deleter as its caller builds it (the construction is outside `deleter.go`):
the configuration fields are given, and `status`, `totalRows` and `remainedRows`
have Go's zero values, that is `statusAnalyzing`, 0 and 0. -/
def fresh (tableName column : String) (columnValues : List String) (lower upper : String)
    (priority : Int) : deleter :=
  { tableName := tableName, status := status.statusAnalyzing, column := column,
    columnValues := columnValues, lower := lower, upper := upper, priority := priority,
    totalRows := 0, remainedRows := 0 }

/-- The lifecycle rank of a status: `statusAnalyzing` below `statusWaiting`
below the two deleting statuses, which share a rank, below `statusCompleted`. -/
def rank : status → Nat
  | status.statusAnalyzing => 0
  | status.statusWaiting => 1
  | status.statusDeleting => 2
  | status.statusCascadeDeleting => 2
  | status.statusCompleted => 3

/-- What the polling goroutine has done once the replies available to it are
used up: the deleter it leaves, the requests it sent, and whether the loop has
returned (it returns only on seeing `statusCompleted`). -/
structure Polling where
  d : deleter
  calls : List Call
  returned : Bool
  deriving DecidableEq, Repr

/-- The loop of the goroutine started by `startRowCountUpdater`, run alone against
the replies the database gives to its successive count queries: before each
iteration it returns if the status is `statusCompleted`, otherwise it calls
`updateRowCount` and ignores the returned error. The sleep between iterations is
not modelled. With no reply left the loop is still polling. -/
def startRowCountUpdater (d : deleter) : List (Except error Int) → Polling
  | [] => { d := d, calls := [], returned := decide (d.status = status.statusCompleted) }
  | reply :: replies =>
    if d.status = status.statusCompleted then
      { d := d, calls := [], returned := true }
    else
      let o := updateRowCount d reply
      let p := startRowCountUpdater o.d replies
      { p with calls := o.calls ++ p.calls }

end SpannerDeleter


/-! ## Format strings of `deleter.go`, expanded -/

namespace SpannerDeleter

theorem Sprintf_delete (t : String) :
    fmt.Sprintf "DELETE FROM `%s`" [t] = "DELETE FROM `" ++ t ++ "`" := by
  apply String.ext
  simp [fmt.Sprintf, fmt.expand, String.data_append]

theorem Sprintf_in (c j : String) :
    fmt.Sprintf " WHERE %s IN ('%s')" [c, j] = " WHERE " ++ c ++ " IN ('" ++ j ++ "')" := by
  apply String.ext
  simp [fmt.Sprintf, fmt.expand, String.data_append]

theorem Sprintf_both (c lo hi : String) :
    fmt.Sprintf " WHERE %s > '%s' AND %s < '%s'" [c, lo, c, hi]
      = " WHERE " ++ c ++ " > '" ++ lo ++ "' AND " ++ c ++ " < '" ++ hi ++ "'" := by
  apply String.ext
  simp [fmt.Sprintf, fmt.expand, String.data_append]

theorem Sprintf_lower (c lo : String) :
    fmt.Sprintf " WHERE %s > '%s'" [c, lo] = " WHERE " ++ c ++ " > '" ++ lo ++ "'" := by
  apply String.ext
  simp [fmt.Sprintf, fmt.expand, String.data_append]

theorem Sprintf_upper (c hi : String) :
    fmt.Sprintf " WHERE %s < '%s'" [c, hi] = " WHERE " ++ c ++ " < '" ++ hi ++ "'" := by
  apply String.ext
  simp [fmt.Sprintf, fmt.expand, String.data_append]

theorem Sprintf_count (t s : String) :
    fmt.Sprintf "SELECT COUNT(*) as count FROM `%s` %s" [t, s]
      = "SELECT COUNT(*) as count FROM `" ++ t ++ "` " ++ s := by
  apply String.ext
  simp [fmt.Sprintf, fmt.expand, String.data_append]

/-! ## `strings.Join` -/

theorem intercalate_go_eq (acc sep : String) (l : List String) :
    String.intercalate.go acc sep l = acc ++ strings.joinRest sep l := by
  induction l generalizing acc with
  | nil => simp [String.intercalate.go, strings.joinRest]
  | cons a l ih => simp [String.intercalate.go, strings.joinRest, ih, String.append_assoc]

theorem Join_eq_intercalate (l : List String) (sep : String) :
    strings.Join l sep = String.intercalate sep l := by
  cases l <;> simp [strings.Join, String.intercalate, intercalate_go_eq]

theorem joinRest_quoted (l : List String) :
    strings.joinRest "','" l ++ "'" = "'" ++ strings.joinRest "," (l.map fun v => "'" ++ v ++ "'") := by
  induction l with
  | nil => simp [strings.joinRest]
  | cons a l ih =>
    have h : strings.joinRest "','" (a :: l) ++ "'"
        = "','" ++ a ++ (strings.joinRest "','" l ++ "'") := by
      simp [strings.joinRest, String.append_assoc]
    rw [h, ih]
    apply String.ext
    simp [strings.joinRest, String.data_append]

theorem quoted_Join (l : List String) (h : l ≠ []) :
    "'" ++ strings.Join l "','" ++ "'" = String.intercalate "," (l.map fun v => "'" ++ v ++ "'") := by
  cases l with
  | nil => exact absurd rfl h
  | cons a l =>
    rw [← Join_eq_intercalate]
    simp only [strings.Join, List.map]
    rw [String.append_assoc, String.append_assoc, joinRest_quoted]
    simp [String.append_assoc]

theorem suffix_of_values (d : deleter) (h : d.columnValues ≠ []) :
    getStatementStringSuffix d
      = " WHERE " ++ d.column ++ " IN ('" ++ strings.Join d.columnValues "','" ++ "')" := by
  have hl : d.columnValues.length > 0 := List.length_pos.mpr h
  simp only [getStatementStringSuffix, hl, if_true, Sprintf_in]

/-! ## Statement construction -/

/-- C1: for every deleter state the delete statement is "DELETE FROM" followed by
the table name between backquotes and then the suffix of the same state; with no
column values and both bounds empty it is that prefix alone, without a WHERE
clause, for every table name. -/
theorem getDeleteStatementString_eq (d : deleter) :
    getDeleteStatementString d
        = "DELETE FROM `" ++ d.tableName ++ "`" ++ getStatementStringSuffix d
      ∧ getDeleteStatementString { d with columnValues := [], lower := "", upper := "" }
        = "DELETE FROM `" ++ d.tableName ++ "`" := by
  constructor
  · simp only [getDeleteStatementString, Sprintf_delete]
  · simp [getDeleteStatementString, Sprintf_delete, getStatementStringSuffix]

/-- C2: for every column and every non-empty list of values the suffix is
" WHERE column IN (...)" where the parentheses hold the values in list order,
each between single quotes and copied literally (a quote inside a value is not
escaped), separated by a comma without a space. -/
theorem getStatementStringSuffix_values (d : deleter) (h : d.columnValues ≠ []) :
    getStatementStringSuffix d
        = " WHERE " ++ d.column ++ " IN ("
            ++ String.intercalate "," (d.columnValues.map fun v => "'" ++ v ++ "'") ++ ")"
      ∧ getStatementStringSuffix { d with column := "id", columnValues := ["a", "b"] }
        = " WHERE id IN ('a','b')"
      ∧ getStatementStringSuffix { d with column := "id", columnValues := ["o'k", "b"] }
        = " WHERE id IN ('o'k','b')" := by
  refine ⟨?_, rfl, rfl⟩
  rw [suffix_of_values d h, ← quoted_Join d.columnValues h]
  simp [String.append_assoc]
  rfl

/-- Witness of C2: column "id" with the values "x", "y", "z". -/
theorem getStatementStringSuffix_values_witness :
    (fresh "t" "id" ["x", "y", "z"] "" "" 0).columnValues ≠ []
      ∧ getStatementStringSuffix (fresh "t" "id" ["x", "y", "z"] "" "" 0)
        = " WHERE id IN ('x','y','z')" :=
  ⟨by decide, (getStatementStringSuffix_values (fresh "t" "id" ["x", "y", "z"] "" "" 0)
    (by decide)).1⟩

/-- C3: with no column values and a non-empty column c, the suffix is the
two-sided comparison when both bounds are non-empty, the lower comparison when
only lower is, the upper comparison when only upper is, and empty when neither
is; for column "ts" and the bounds "100" and "200" these are the three texts of
the specification. -/
theorem getStatementStringSuffix_range (d : deleter) (hv : d.columnValues = [])
    (hc : d.column ≠ "") :
    (d.lower ≠ "" → d.upper ≠ "" → getStatementStringSuffix d
        = " WHERE " ++ d.column ++ " > '" ++ d.lower ++ "' AND "
            ++ d.column ++ " < '" ++ d.upper ++ "'")
      ∧ (d.lower ≠ "" → d.upper = "" → getStatementStringSuffix d
        = " WHERE " ++ d.column ++ " > '" ++ d.lower ++ "'")
      ∧ (d.lower = "" → d.upper ≠ "" → getStatementStringSuffix d
        = " WHERE " ++ d.column ++ " < '" ++ d.upper ++ "'")
      ∧ (d.lower = "" → d.upper = "" → getStatementStringSuffix d = "")
      ∧ getStatementStringSuffix
          { d with column := "ts", columnValues := [], lower := "100", upper := "200" }
        = " WHERE ts > '100' AND ts < '200'"
      ∧ getStatementStringSuffix
          { d with column := "ts", columnValues := [], lower := "100", upper := "" }
        = " WHERE ts > '100'"
      ∧ getStatementStringSuffix
          { d with column := "ts", columnValues := [], lower := "", upper := "200" }
        = " WHERE ts < '200'" := by
  refine ⟨?_, ?_, ?_, ?_, rfl, rfl, rfl⟩
  · intro hl hu
    simp [getStatementStringSuffix, hv, hc, hl, hu, Sprintf_both]
  · intro hl hu
    simp [getStatementStringSuffix, hv, hc, hl, hu, Sprintf_lower]
  · intro hl hu
    simp [getStatementStringSuffix, hv, hc, hl, hu, Sprintf_upper]
  · intro hl hu
    simp [getStatementStringSuffix, hv, hl, hu]

/-- Witness of C3: column "k" with each of the four combinations of the bounds
"3" and "9". -/
theorem getStatementStringSuffix_range_witness :
    getStatementStringSuffix (fresh "t" "k" [] "3" "9" 0) = " WHERE k > '3' AND k < '9'"
      ∧ getStatementStringSuffix (fresh "t" "k" [] "3" "" 0) = " WHERE k > '3'"
      ∧ getStatementStringSuffix (fresh "t" "k" [] "" "9" 0) = " WHERE k < '9'"
      ∧ getStatementStringSuffix (fresh "t" "k" [] "" "" 0) = "" :=
  ⟨(getStatementStringSuffix_range (fresh "t" "k" [] "3" "9" 0) rfl (by decide)).1
      (by decide) (by decide),
    (getStatementStringSuffix_range (fresh "t" "k" [] "3" "" 0) rfl (by decide)).2.1
      (by decide) rfl,
    (getStatementStringSuffix_range (fresh "t" "k" [] "" "9" 0) rfl (by decide)).2.2.1
      rfl (by decide),
    (getStatementStringSuffix_range (fresh "t" "k" [] "" "" 0) rfl (by decide)).2.2.2.1
      rfl rfl⟩

/-- C4: when the list of column values is non-empty the suffix is the IN clause
built from the column and the values alone: changing lower and upper to anything
leaves it the same, and it is none of the three range clauses that the bounds of
the state would generate. -/
theorem values_precede_range (d : deleter) (h : d.columnValues ≠ [])
    (lower upper : String) :
    getStatementStringSuffix { d with lower := lower, upper := upper }
        = getStatementStringSuffix d
      ∧ getStatementStringSuffix d
        = " WHERE " ++ d.column ++ " IN ('" ++ String.intercalate "','" d.columnValues ++ "')"
      ∧ getStatementStringSuffix d
        ≠ " WHERE " ++ d.column ++ " > '" ++ d.lower ++ "' AND "
            ++ d.column ++ " < '" ++ d.upper ++ "'"
      ∧ getStatementStringSuffix d ≠ " WHERE " ++ d.column ++ " > '" ++ d.lower ++ "'"
      ∧ getStatementStringSuffix d ≠ " WHERE " ++ d.column ++ " < '" ++ d.upper ++ "'" := by
  have h1 : ({ d with lower := lower, upper := upper } : deleter).columnValues ≠ [] := h
  refine ⟨?_, ?_, ?_, ?_, ?_⟩
  · rw [suffix_of_values _ h1, suffix_of_values d h]
  · rw [suffix_of_values d h, Join_eq_intercalate]
  · rw [suffix_of_values d h]
    intro heq
    have hd := congrArg String.data heq
    simp [String.data_append] at hd
  · rw [suffix_of_values d h]
    intro heq
    have hd := congrArg String.data heq
    simp [String.data_append] at hd
  · rw [suffix_of_values d h]
    intro heq
    have hd := congrArg String.data heq
    simp [String.data_append] at hd

/-- Witness of C4: column values "a", "b" together with the bounds "1" and "5". -/
theorem values_precede_range_witness :
    (fresh "t" "id" ["a", "b"] "1" "5" 0).columnValues ≠ []
      ∧ getStatementStringSuffix (fresh "t" "id" ["a", "b"] "" "" 0)
        = getStatementStringSuffix (fresh "t" "id" ["a", "b"] "1" "5" 0)
      ∧ getStatementStringSuffix (fresh "t" "id" ["a", "b"] "1" "5" 0)
        = " WHERE id IN ('a','b')" :=
  ⟨by decide,
    (values_precede_range (fresh "t" "id" ["a", "b"] "1" "5" 0)
      (by decide) "" "").1,
    (values_precede_range (fresh "t" "id" ["a", "b"] "1" "5" 0)
      (by decide) "" "").2.1⟩

/-! ## Row counts and status -/

theorem uint64_of_count (count : Int) (h0 : 0 ≤ count) (h1 : count < 2 ^ 63) :
    ((uint64 count : Nat) : Int) = count := by
  unfold uint64
  have h2 : count % 2 ^ 64 = count := Int.emod_eq_of_lt h0 (by omega)
  rw [h2]
  exact Int.toNat_of_nonneg h0

theorem updateRowCount_remainedRows (d : deleter) (count : Int) :
    (updateRowCount d (Except.ok count)).d.remainedRows = uint64 count := by
  by_cases ht : d.totalRows = 0 <;> by_cases hc : count = 0 <;>
    by_cases hs : d.status = status.statusAnalyzing <;> simp [updateRowCount, ht, hc, hs]

theorem updateRowCount_status (d : deleter) (count : Int) :
    (updateRowCount d (Except.ok count)).d.status
      = if count = 0 then status.statusCompleted
        else if d.status = status.statusAnalyzing then status.statusWaiting else d.status := by
  by_cases ht : d.totalRows = 0 <;> by_cases hc : count = 0 <;>
    by_cases hs : d.status = status.statusAnalyzing <;> simp [updateRowCount, ht, hc, hs]

theorem updateRowCount_totalRows (d : deleter) (count : Int) :
    (updateRowCount d (Except.ok count)).d.totalRows
      = if d.totalRows = 0 then uint64 count else d.totalRows := by
  by_cases ht : d.totalRows = 0 <;> by_cases hc : count = 0 <;>
    by_cases hs : d.status = status.statusAnalyzing <;> simp [updateRowCount, ht, hc, hs]

theorem step_totalRows (d : deleter) (h : 0 < d.totalRows) (op : Op) :
    (step d op).totalRows = d.totalRows := by
  have hne : d.totalRows ≠ 0 := Nat.pos_iff_ne_zero.mp h
  cases op with
  | updateRowCount reply =>
    cases reply with
    | error e => rfl
    | ok count =>
      show (updateRowCount d (Except.ok count)).d.totalRows = d.totalRows
      rw [updateRowCount_totalRows, if_neg hne]
  | deleteRows reply => rfl
  | parentDeletionStarted => rfl

theorem run_totalRows (d : deleter) (h : 0 < d.totalRows) (ops : List Op) :
    (run d ops).totalRows = d.totalRows := by
  induction ops generalizing d with
  | nil => rfl
  | cons op ops ih =>
    have hs := step_totalRows d h op
    have h1 : 0 < (step d op).totalRows := by rw [hs]; exact h
    show (run (step d op) ops).totalRows = d.totalRows
    rw [ih (step d op) h1, hs]

theorem run_append (d : deleter) (ops : List Op) (op : Op) :
    run d (ops ++ [op]) = step (run d ops) op := by
  simp [run, List.foldl_append]

/-- C5: from every state, whatever its status, a successful updateRowCount that
observes the count 0 returns nil and leaves status = statusCompleted and
remainedRows = 0. -/
theorem updateRowCount_zero (d : deleter) :
    (updateRowCount d (Except.ok 0)).ret = none
      ∧ (updateRowCount d (Except.ok 0)).d.status = status.statusCompleted
      ∧ (updateRowCount d (Except.ok 0)).d.remainedRows = 0 := by
  refine ⟨rfl, ?_, ?_⟩
  · rw [updateRowCount_status]; rfl
  · rw [updateRowCount_remainedRows]; rfl

/-- C6: a successful updateRowCount observing a positive count moves a state in
statusAnalyzing to statusWaiting and leaves a state in statusWaiting there; so
two such observations in a row, started in statusAnalyzing, end in
statusWaiting. -/
theorem updateRowCount_positive (d : deleter) (c1 c2 : Int) (h1 : 0 < c1) (h2 : 0 < c2) :
    (updateRowCount { d with status := status.statusAnalyzing } (Except.ok c1)).d.status
        = status.statusWaiting
      ∧ (updateRowCount { d with status := status.statusWaiting } (Except.ok c2)).d.status
        = status.statusWaiting
      ∧ (run { d with status := status.statusAnalyzing }
          [Op.updateRowCount (Except.ok c1), Op.updateRowCount (Except.ok c2)]).status
        = status.statusWaiting := by
  have n1 : c1 ≠ 0 := by omega
  have n2 : c2 ≠ 0 := by omega
  have a1 : (updateRowCount { d with status := status.statusAnalyzing } (Except.ok c1)).d.status
      = status.statusWaiting := by
    rw [updateRowCount_status]; simp [n1]
  refine ⟨a1, ?_, ?_⟩
  · rw [updateRowCount_status]; simp [n2]
  · show (updateRowCount (updateRowCount { d with status := status.statusAnalyzing }
        (Except.ok c1)).d (Except.ok c2)).d.status = status.statusWaiting
    rw [updateRowCount_status, a1]; simp [n2]

/-- Witness of C6: the counts 1000 and 7 on a fresh deleter. -/
theorem updateRowCount_positive_witness :
    (run (fresh "t" "" [] "" "" 0)
        [Op.updateRowCount (Except.ok 1000), Op.updateRowCount (Except.ok 7)]).status
      = status.statusWaiting :=
  (updateRowCount_positive (fresh "t" "" [] "" "" 0) 1000 7 (by decide) (by decide)).2.2

/-- C7: once totalRows is positive no sequence of operations (updateRowCount with
any reply, deleteRows with any reply, parentDeletionStarted) changes it, while a
successful updateRowCount at the end of any such sequence leaves remainedRows at
the count just observed: at uint64(count), which is the count itself for every
row count (a non-negative int64). -/
theorem totalRows_frozen (d : deleter) (h : 0 < d.totalRows) (ops : List Op) (count : Int) :
    (run d ops).totalRows = d.totalRows
      ∧ (run d (ops ++ [Op.updateRowCount (Except.ok count)])).totalRows = d.totalRows
      ∧ (run d (ops ++ [Op.updateRowCount (Except.ok count)])).remainedRows = uint64 count
      ∧ (0 ≤ count → count < 2 ^ 63 →
          ((run d (ops ++ [Op.updateRowCount (Except.ok count)])).remainedRows : Int)
            = count) := by
  have hrem : (run d (ops ++ [Op.updateRowCount (Except.ok count)])).remainedRows
      = uint64 count := by
    rw [run_append]
    exact updateRowCount_remainedRows (run d ops) count
  refine ⟨run_totalRows d h ops, run_totalRows d h _, hrem, ?_⟩
  intro h0 h1
  rw [hrem]
  exact uint64_of_count count h0 h1

/-- Witness of C7: a deleter with totalRows = 1000 taken through a successful
count of 5, a failed count, a delete, a parent notification and a last count of
3. -/
theorem totalRows_frozen_witness :
    0 < ({ fresh "t" "" [] "" "" 0 with totalRows := 1000 } : deleter).totalRows
      ∧ (run { fresh "t" "" [] "" "" 0 with totalRows := 1000 }
          ([Op.updateRowCount (Except.ok 5), Op.updateRowCount (Except.error ⟨"unavailable"⟩),
            Op.deleteRows none, Op.parentDeletionStarted]
            ++ [Op.updateRowCount (Except.ok 3)])).totalRows = 1000
      ∧ ((run { fresh "t" "" [] "" "" 0 with totalRows := 1000 }
          ([Op.updateRowCount (Except.ok 5), Op.updateRowCount (Except.error ⟨"unavailable"⟩),
            Op.deleteRows none, Op.parentDeletionStarted]
            ++ [Op.updateRowCount (Except.ok 3)])).remainedRows : Int) = 3 :=
  ⟨by decide,
    (totalRows_frozen { fresh "t" "" [] "" "" 0 with totalRows := 1000 } (by decide)
      [Op.updateRowCount (Except.ok 5), Op.updateRowCount (Except.error ⟨"unavailable"⟩),
        Op.deleteRows none, Op.parentDeletionStarted] 3).2.1,
    (totalRows_frozen { fresh "t" "" [] "" "" 0 with totalRows := 1000 } (by decide)
      [Op.updateRowCount (Except.ok 5), Op.updateRowCount (Except.error ⟨"unavailable"⟩),
        Op.deleteRows none, Op.parentDeletionStarted] 3).2.2.2 (by norm_num) (by norm_num)⟩

/-- Counterexample to C8 as stated: on a fresh deleter the successful counts 0
and then 5 leave totalRows = 5, which is not the first count. -/
theorem totalRows_not_first_count :
    (fresh "t" "" [] "" "" 0).totalRows = 0
      ∧ (run (fresh "t" "" [] "" "" 0)
          [Op.updateRowCount (Except.ok 0), Op.updateRowCount (Except.ok 5)]).totalRows = 5
      ∧ (run (fresh "t" "" [] "" "" 0)
          [Op.updateRowCount (Except.ok 0), Op.updateRowCount (Except.ok 5)]).totalRows ≠ 0 := by
  decide

/-- C8, amended: on a state with totalRows = 0, after any sequence of successful
updateRowCount observations with row counts c1, ..., cn (each in the
non-negative range of int64), totalRows is the first count of the sequence that
is not zero, and 0 when there is none; so it is c1 whenever c1 is not zero. -/
theorem totalRows_first_nonzero (d : deleter) (h : d.totalRows = 0) (cs : List Int)
    (hr : ∀ c ∈ cs, 0 ≤ c ∧ c < 2 ^ 63) :
    ((run d (cs.map fun c => Op.updateRowCount (Except.ok c))).totalRows : Int)
      = (cs.find? fun c => c != 0).getD 0 := by
  induction cs generalizing d with
  | nil => simp [run, h]
  | cons c cs ih =>
    have hc := hr c (List.mem_cons_self c cs)
    have hrest : ∀ x ∈ cs, 0 ≤ x ∧ x < 2 ^ 63 := fun x hx => hr x (List.mem_cons_of_mem c hx)
    have hstep : (step d (Op.updateRowCount (Except.ok c))).totalRows = uint64 c := by
      show (updateRowCount d (Except.ok c)).d.totalRows = uint64 c
      rw [updateRowCount_totalRows, if_pos h]
    have hu : ((uint64 c : Nat) : Int) = c := uint64_of_count c hc.1 hc.2
    show ((run (step d (Op.updateRowCount (Except.ok c)))
      (cs.map fun c => Op.updateRowCount (Except.ok c))).totalRows : Int) = _
    by_cases hz : c = 0
    · have h0 : (step d (Op.updateRowCount (Except.ok c))).totalRows = 0 := by
        rw [hstep]
        have : ((uint64 c : Nat) : Int) = 0 := by rw [hu, hz]
        exact_mod_cast this
      rw [ih _ h0 hrest]
      simp [List.find?, hz]
    · have hpos : 0 < (step d (Op.updateRowCount (Except.ok c))).totalRows := by
        rw [hstep]
        have : (0 : Int) < ((uint64 c : Nat) : Int) := by rw [hu]; omega
        exact_mod_cast this
      rw [run_totalRows _ hpos, hstep, hu]
      have hb : (c != 0) = true := by simpa using hz
      simp [List.find?, hb]

/-- Witness of C8, amended: the counts 0, 5, 9 on a fresh deleter give
totalRows = 5, and the counts 7, 0, 9 give totalRows = 7. -/
theorem totalRows_first_nonzero_witness :
    ((run (fresh "t" "" [] "" "" 0)
        ([0, 5, 9].map fun c => Op.updateRowCount (Except.ok c))).totalRows : Int) = 5
      ∧ ((run (fresh "t" "" [] "" "" 0)
        ([7, 0, 9].map fun c => Op.updateRowCount (Except.ok c))).totalRows : Int) = 7 :=
  ⟨totalRows_first_nonzero (fresh "t" "" [] "" "" 0) rfl [0, 5, 9] (by
      intro c hc; simp at hc; rcases hc with rfl | rfl | rfl <;> norm_num),
    totalRows_first_nonzero (fresh "t" "" [] "" "" 0) rfl [7, 0, 9] (by
      intro c hc; simp at hc; rcases hc with rfl | rfl | rfl <;> norm_num)⟩

/-- C9: when the count query fails with the error e, updateRowCount returns e
and the deleter is the one it started from: status, totalRows and remainedRows
are unchanged. -/
theorem updateRowCount_error (d : deleter) (e : error) :
    (updateRowCount d (Except.error e)).ret = some e
      ∧ (updateRowCount d (Except.error e)).d = d
      ∧ (updateRowCount d (Except.error e)).d.status = d.status
      ∧ (updateRowCount d (Except.error e)).d.totalRows = d.totalRows
      ∧ (updateRowCount d (Except.error e)).d.remainedRows = d.remainedRows :=
  ⟨rfl, rfl, rfl, rfl, rfl⟩

/-- C10: from every state, whatever its status, parentDeletionStarted sets the
status to statusCascadeDeleting and changes neither counter; a successful
updateRowCount observing 0 after it sets the status to statusCompleted. -/
theorem parentDeletionStarted_then_zero (d : deleter) :
    (parentDeletionStarted d).status = status.statusCascadeDeleting
      ∧ (parentDeletionStarted d).totalRows = d.totalRows
      ∧ (parentDeletionStarted d).remainedRows = d.remainedRows
      ∧ (updateRowCount (parentDeletionStarted d) (Except.ok 0)).ret = none
      ∧ (updateRowCount (parentDeletionStarted d) (Except.ok 0)).d.status
        = status.statusCompleted := by
  refine ⟨rfl, rfl, rfl, rfl, ?_⟩
  rw [updateRowCount_status]
  rfl

/-! ## Status under sequences of operations -/

theorem updateRowCount_status_cascade (d : deleter) (reply : Except error Int)
    (h : d.status = status.statusCascadeDeleting) (hr : reply ≠ Except.ok 0) :
    (updateRowCount d reply).d.status = status.statusCascadeDeleting := by
  cases reply with
  | error e => exact h
  | ok count =>
    have hc : count ≠ 0 := fun h0 => hr (by rw [h0])
    rw [updateRowCount_status, h]
    simp [hc]

theorem updateRowCount_status_zero (d : deleter) :
    (updateRowCount d (Except.ok 0)).d.status = status.statusCompleted := by
  rw [updateRowCount_status]
  rfl

theorem updateRowCount_status_completed (d : deleter) (reply : Except error Int)
    (h : d.status = status.statusCompleted) :
    (updateRowCount d reply).d.status = status.statusCompleted := by
  cases reply with
  | error e => exact h
  | ok count =>
    rw [updateRowCount_status, h]
    by_cases hc : count = 0 <;> simp [hc]

theorem run_updates_completed (d : deleter) (replies : List (Except error Int))
    (h : d.status = status.statusCompleted) :
    (run d (replies.map Op.updateRowCount)).status = status.statusCompleted := by
  induction replies generalizing d with
  | nil => exact h
  | cons reply replies ih =>
    exact ih (step d (Op.updateRowCount reply)) (updateRowCount_status_completed d reply h)

theorem run_updates_cascade (d : deleter) (replies : List (Except error Int))
    (h : d.status = status.statusCascadeDeleting) (hno : ∀ r ∈ replies, r ≠ Except.ok 0) :
    (run d (replies.map Op.updateRowCount)).status = status.statusCascadeDeleting := by
  induction replies generalizing d with
  | nil => exact h
  | cons reply replies ih =>
    exact ih (step d (Op.updateRowCount reply))
      (updateRowCount_status_cascade d reply h (hno reply (List.mem_cons_self _ _)))
      (fun r hr => hno r (List.mem_cons_of_mem _ hr))

theorem run_updates_zero (d : deleter) (replies : List (Except error Int))
    (hz : Except.ok 0 ∈ replies) :
    (run d (replies.map Op.updateRowCount)).status = status.statusCompleted := by
  induction replies generalizing d with
  | nil => cases hz
  | cons reply replies ih =>
    show (run (step d (Op.updateRowCount reply)) (replies.map Op.updateRowCount)).status = _
    by_cases hr : reply = Except.ok 0
    · subst hr
      exact run_updates_completed _ replies (updateRowCount_status_zero d)
    · rcases List.mem_cons.mp hz with h0 | h0
      · exact absurd h0.symm hr
      · exact ih _ h0

/-- C11: from a state in statusCascadeDeleting, after each step of any sequence
of updateRowCount replies (errors or counts) the status is
statusCascadeDeleting or statusCompleted; it is statusCascadeDeleting as long as
no successful zero count is among the replies so far, and statusCompleted once
there is one. -/
theorem cascadeDeleting_kept (d : deleter) (h : d.status = status.statusCascadeDeleting)
    (replies : List (Except error Int)) (k : Nat) :
    ((run d ((replies.take k).map Op.updateRowCount)).status = status.statusCascadeDeleting
        ∨ (run d ((replies.take k).map Op.updateRowCount)).status = status.statusCompleted)
      ∧ ((∀ r ∈ replies.take k, r ≠ Except.ok 0) →
          (run d ((replies.take k).map Op.updateRowCount)).status
            = status.statusCascadeDeleting)
      ∧ (Except.ok 0 ∈ replies.take k →
          (run d ((replies.take k).map Op.updateRowCount)).status
            = status.statusCompleted) := by
  refine ⟨?_, ?_, ?_⟩
  · by_cases hz : Except.ok 0 ∈ replies.take k
    · right; exact run_updates_zero d _ hz
    · left
      exact run_updates_cascade d _ h (fun r hr h0 => hz (h0 ▸ hr))
  · intro hno
    exact run_updates_cascade d _ h hno
  · intro hz
    exact run_updates_zero d _ hz

/-- Witness of C11: after a parent notification, the replies 8, an error, 3, 0
and 4: cascade-deleting after the first three, completed after the fourth and
the fifth. -/
theorem cascadeDeleting_kept_witness :
    (parentDeletionStarted (fresh "t" "" [] "" "" 0)).status = status.statusCascadeDeleting
      ∧ (run (parentDeletionStarted (fresh "t" "" [] "" "" 0))
          (([Except.ok 8, Except.error ⟨"unavailable"⟩, Except.ok 3, Except.ok 0,
            Except.ok 4].take 3).map Op.updateRowCount)).status
        = status.statusCascadeDeleting
      ∧ (run (parentDeletionStarted (fresh "t" "" [] "" "" 0))
          (([Except.ok 8, Except.error ⟨"unavailable"⟩, Except.ok 3, Except.ok 0,
            Except.ok 4].take 5).map Op.updateRowCount)).status
        = status.statusCompleted :=
  ⟨rfl,
    (cascadeDeleting_kept (parentDeletionStarted (fresh "t" "" [] "" "" 0)) rfl
      [Except.ok 8, Except.error ⟨"unavailable"⟩, Except.ok 3, Except.ok 0, Except.ok 4] 3).2.1
      (by simp),
    (cascadeDeleting_kept (parentDeletionStarted (fresh "t" "" [] "" "" 0)) rfl
      [Except.ok 8, Except.error ⟨"unavailable"⟩, Except.ok 3, Except.ok 0, Except.ok 4] 5).2.2
      (by simp)⟩

/-- C12: for every state and every reply r of the partitioned update, deleteRows
sends exactly one request, a partitioned update whose statement is
getDeleteStatementString of the state and whose priority is the priority of the
state, returns r as it is, and leaves status = statusDeleting with totalRows and
remainedRows unchanged, whether r is nil or an error. -/
theorem deleteRows_outcome (d : deleter) (r : Option error) :
    (deleteRows d r).calls
        = [Call.PartitionedUpdateWithOptions (getDeleteStatementString d) d.priority]
      ∧ (deleteRows d r).ret = r
      ∧ (deleteRows d r).d.status = status.statusDeleting
      ∧ (deleteRows d r).d.totalRows = d.totalRows
      ∧ (deleteRows d r).d.remainedRows = d.remainedRows :=
  ⟨rfl, rfl, rfl, rfl, rfl⟩

theorem rank_le_completed (s : status) : rank s ≤ rank status.statusCompleted := by
  cases s <;> decide

theorem rank_updateRowCount (d : deleter) (reply : Except error Int) :
    rank d.status ≤ rank (updateRowCount d reply).d.status := by
  cases reply with
  | error e => exact Nat.le_refl _
  | ok count =>
    rw [updateRowCount_status]
    by_cases hc : count = 0
    · rw [if_pos hc]
      exact rank_le_completed d.status
    · rw [if_neg hc]
      by_cases hs : d.status = status.statusAnalyzing
      · rw [if_pos hs, hs]
        decide
      · rw [if_neg hs]

/-- Counterexample to C13 as stated: a fresh deleter that has observed the count
0 is in statusCompleted; deleteRows then puts it in statusDeleting, of lower
rank, and parentDeletionStarted in statusCascadeDeleting. -/
theorem completed_not_terminal :
    (run (fresh "t" "" [] "" "" 0) [Op.updateRowCount (Except.ok 0)]).status
        = status.statusCompleted
      ∧ (run (fresh "t" "" [] "" "" 0)
          [Op.updateRowCount (Except.ok 0), Op.deleteRows none]).status
        = status.statusDeleting
      ∧ rank (run (fresh "t" "" [] "" "" 0)
          [Op.updateRowCount (Except.ok 0), Op.deleteRows none]).status
        < rank (run (fresh "t" "" [] "" "" 0) [Op.updateRowCount (Except.ok 0)]).status
      ∧ (run (fresh "t" "" [] "" "" 0)
          [Op.updateRowCount (Except.ok 0), Op.parentDeletionStarted]).status
        = status.statusCascadeDeleting := by
  decide

/-- C13, amended: from a state whose status is not statusCompleted no operation
(updateRowCount, deleteRows, parentDeletionStarted, with any reply) lowers the
rank of the status; a state in statusCompleted stays there under updateRowCount
with any reply, while deleteRows sets statusDeleting and parentDeletionStarted
sets statusCascadeDeleting from every status, statusCompleted included. -/
theorem status_forward (d : deleter) (h : d.status ≠ status.statusCompleted) (op : Op)
    (reply : Except error Int) (r : Option error) :
    rank d.status ≤ rank (step d op).status
      ∧ (updateRowCount { d with status := status.statusCompleted } reply).d.status
        = status.statusCompleted
      ∧ (deleteRows { d with status := status.statusCompleted } r).d.status
        = status.statusDeleting
      ∧ (parentDeletionStarted { d with status := status.statusCompleted }).status
        = status.statusCascadeDeleting := by
  refine ⟨?_, updateRowCount_status_completed _ reply rfl, rfl, rfl⟩
  cases op with
  | updateRowCount q => exact rank_updateRowCount d q
  | deleteRows q =>
    show rank d.status ≤ rank status.statusDeleting
    revert h
    cases d.status <;> decide
  | parentDeletionStarted =>
    show rank d.status ≤ rank status.statusCascadeDeleting
    revert h
    cases d.status <;> decide

/-- Witness of C13, amended: deleteRows on a deleter that is waiting. -/
theorem status_forward_witness :
    ({ fresh "t" "" [] "" "" 0 with status := status.statusWaiting } : deleter).status
        ≠ status.statusCompleted
      ∧ rank ({ fresh "t" "" [] "" "" 0 with status := status.statusWaiting } : deleter).status
        ≤ rank (step { fresh "t" "" [] "" "" 0 with status := status.statusWaiting }
            (Op.deleteRows none)).status :=
  ⟨by decide,
    (status_forward { fresh "t" "" [] "" "" 0 with status := status.statusWaiting }
      (by decide) (Op.deleteRows none) (Except.ok 1) none).1⟩

/-- C14: the scenario of the specification. A deleter for the table "orders"
with no filter and priority 0 starts in statusAnalyzing with both counters 0; a
successful count of 1000 gives statusWaiting, totalRows = 1000 and
remainedRows = 1000; deleteRows then gives statusDeleting and sends the
statement "DELETE FROM" followed by the table name between backquotes; a
successful count of 0 then gives statusCompleted, remainedRows = 0 and
totalRows still 1000. -/
theorem orders_scenario (r : Option error) :
    (fresh "orders" "" [] "" "" 0).status = status.statusAnalyzing
      ∧ (fresh "orders" "" [] "" "" 0).totalRows = 0
      ∧ (fresh "orders" "" [] "" "" 0).remainedRows = 0
      ∧ (updateRowCount (fresh "orders" "" [] "" "" 0) (Except.ok 1000)).ret = none
      ∧ (run (fresh "orders" "" [] "" "" 0) [Op.updateRowCount (Except.ok 1000)])
        = { fresh "orders" "" [] "" "" 0 with
            status := status.statusWaiting, totalRows := 1000, remainedRows := 1000 }
      ∧ (deleteRows
          (run (fresh "orders" "" [] "" "" 0) [Op.updateRowCount (Except.ok 1000)]) r).calls
        = [Call.PartitionedUpdateWithOptions "DELETE FROM `orders`" 0]
      ∧ (run (fresh "orders" "" [] "" "" 0)
          [Op.updateRowCount (Except.ok 1000), Op.deleteRows r])
        = { fresh "orders" "" [] "" "" 0 with
            status := status.statusDeleting, totalRows := 1000, remainedRows := 1000 }
      ∧ (run (fresh "orders" "" [] "" "" 0)
          [Op.updateRowCount (Except.ok 1000), Op.deleteRows r,
            Op.updateRowCount (Except.ok 0)])
        = { fresh "orders" "" [] "" "" 0 with
            status := status.statusCompleted, totalRows := 1000, remainedRows := 0 } := by
  refine ⟨rfl, rfl, rfl, rfl, ?_, ?_, ?_, ?_⟩
  · decide
  · rfl
  · have hr : run (fresh "orders" "" [] "" "" 0)
        [Op.updateRowCount (Except.ok 1000), Op.deleteRows r]
        = run (fresh "orders" "" [] "" "" 0)
          [Op.updateRowCount (Except.ok 1000), Op.deleteRows none] := rfl
    rw [hr]
    decide
  · have hr : run (fresh "orders" "" [] "" "" 0)
        [Op.updateRowCount (Except.ok 1000), Op.deleteRows r, Op.updateRowCount (Except.ok 0)]
        = run (fresh "orders" "" [] "" "" 0)
          [Op.updateRowCount (Except.ok 1000), Op.deleteRows none,
            Op.updateRowCount (Except.ok 0)] := rfl
    rw [hr]
    decide

/-! ## The configuration and the polling loop -/

theorem updateRowCount_frame (d : deleter) (reply : Except error Int) :
    (updateRowCount d reply).d.tableName = d.tableName
      ∧ (updateRowCount d reply).d.column = d.column
      ∧ (updateRowCount d reply).d.columnValues = d.columnValues
      ∧ (updateRowCount d reply).d.lower = d.lower
      ∧ (updateRowCount d reply).d.upper = d.upper
      ∧ (updateRowCount d reply).d.priority = d.priority := by
  cases reply with
  | error e => exact ⟨rfl, rfl, rfl, rfl, rfl, rfl⟩
  | ok count =>
    by_cases ht : d.totalRows = 0 <;> by_cases hc : count = 0 <;>
      by_cases hs : d.status = status.statusAnalyzing <;> simp [updateRowCount, ht, hc, hs]

theorem step_frame (d : deleter) (op : Op) :
    (step d op).tableName = d.tableName
      ∧ (step d op).column = d.column
      ∧ (step d op).columnValues = d.columnValues
      ∧ (step d op).lower = d.lower
      ∧ (step d op).upper = d.upper
      ∧ (step d op).priority = d.priority := by
  cases op with
  | updateRowCount reply => exact updateRowCount_frame d reply
  | deleteRows reply => exact ⟨rfl, rfl, rfl, rfl, rfl, rfl⟩
  | parentDeletionStarted => exact ⟨rfl, rfl, rfl, rfl, rfl, rfl⟩

theorem suffix_of_frame (d1 d2 : deleter) (hc : d1.column = d2.column)
    (hv : d1.columnValues = d2.columnValues) (hl : d1.lower = d2.lower)
    (hu : d1.upper = d2.upper) :
    getStatementStringSuffix d1 = getStatementStringSuffix d2 := by
  simp only [getStatementStringSuffix, hc, hv, hl, hu]

theorem updateRowCount_calls (d : deleter) (reply : Except error Int) :
    (updateRowCount d reply).calls
      = [Call.QueryWithOptions (countStatementString d) d.priority] := by
  cases reply <;> rfl

theorem countCall_updateRowCount (d : deleter) (reply : Except error Int) :
    Call.QueryWithOptions (countStatementString (updateRowCount d reply).d)
        (updateRowCount d reply).d.priority
      = Call.QueryWithOptions (countStatementString d) d.priority := by
  obtain ⟨h1, h2, h3, h4, h5, h6⟩ := updateRowCount_frame d reply
  have hsfx := suffix_of_frame _ d h2 h3 h4 h5
  simp only [countStatementString, h1, h6, hsfx]

theorem updateRowCount_not_completed (d : deleter) (reply : Except error Int)
    (hd : d.status ≠ status.statusCompleted) (hr : reply ≠ Except.ok 0) :
    (updateRowCount d reply).d.status ≠ status.statusCompleted := by
  cases reply with
  | error e => exact hd
  | ok count =>
    have hc : count ≠ 0 := fun h0 => hr (by rw [h0])
    rw [updateRowCount_status, if_neg hc]
    by_cases hs : d.status = status.statusAnalyzing
    · rw [if_pos hs]; decide
    · rw [if_neg hs]; exact hd

theorem startRowCountUpdater_completed (d : deleter) (replies : List (Except error Int))
    (h : d.status = status.statusCompleted) :
    startRowCountUpdater d replies = { d := d, calls := [], returned := true } := by
  cases replies with
  | nil => simp [startRowCountUpdater, h]
  | cons reply replies => simp [startRowCountUpdater, h]

theorem startRowCountUpdater_cons (d : deleter) (reply : Except error Int)
    (replies : List (Except error Int)) (hd : d.status ≠ status.statusCompleted) :
    startRowCountUpdater d (reply :: replies)
      = { startRowCountUpdater (updateRowCount d reply).d replies with
          calls := Call.QueryWithOptions (countStatementString d) d.priority
            :: (startRowCountUpdater (updateRowCount d reply).d replies).calls } := by
  simp [startRowCountUpdater, hd, updateRowCount_calls]

theorem startRowCountUpdater_append (d : deleter) (pre rest : List (Except error Int))
    (hd : d.status ≠ status.statusCompleted) (hpre : ∀ r ∈ pre, r ≠ Except.ok 0) :
    ∃ d1 : deleter, d1.status ≠ status.statusCompleted
      ∧ Call.QueryWithOptions (countStatementString d1) d1.priority
        = Call.QueryWithOptions (countStatementString d) d.priority
      ∧ startRowCountUpdater d (pre ++ rest)
        = { startRowCountUpdater d1 rest with
            calls := List.replicate pre.length
                (Call.QueryWithOptions (countStatementString d) d.priority)
              ++ (startRowCountUpdater d1 rest).calls } := by
  induction pre generalizing d with
  | nil => exact ⟨d, hd, rfl, by simp⟩
  | cons reply pre ih =>
    have hr := hpre reply (List.mem_cons_self _ _)
    have hd1 := updateRowCount_not_completed d reply hd hr
    obtain ⟨d1, h1, h2, h3⟩ := ih (updateRowCount d reply).d hd1
      (fun r hm => hpre r (List.mem_cons_of_mem _ hm))
    have hq := countCall_updateRowCount d reply
    refine ⟨d1, h1, h2.trans hq, ?_⟩
    rw [List.cons_append, startRowCountUpdater_cons d reply _ hd, h3, hq]
    simp [List.replicate_succ]

/-- C15: the polling loop, run alone against any finite sequence of replies.
Started on a state in statusCompleted it sends no count query and returns. An
error reply does not end it: the loop goes on with the replies that follow.
From a state that is not completed, with replies in which a successful zero
count comes after a run of other replies (errors or non-zero counts), it sends
one count query for each reply up to and including that zero count, none for
the replies after it, and returns with statusCompleted; with no zero count
among the replies it sends one query per reply and has not returned. -/
theorem polling_until_zero (d : deleter) (hd : d.status ≠ status.statusCompleted)
    (pre post : List (Except error Int)) (hpre : ∀ r ∈ pre, r ≠ Except.ok 0) (e : error) :
    startRowCountUpdater { d with status := status.statusCompleted } post
        = { d := { d with status := status.statusCompleted }, calls := [], returned := true }
      ∧ startRowCountUpdater d (Except.error e :: post)
        = { startRowCountUpdater d post with
            calls := Call.QueryWithOptions (countStatementString d) d.priority
              :: (startRowCountUpdater d post).calls }
      ∧ (startRowCountUpdater d (pre ++ Except.ok 0 :: post)).calls
        = List.replicate (pre.length + 1)
            (Call.QueryWithOptions (countStatementString d) d.priority)
      ∧ (startRowCountUpdater d (pre ++ Except.ok 0 :: post)).returned = true
      ∧ (startRowCountUpdater d (pre ++ Except.ok 0 :: post)).d.status
        = status.statusCompleted
      ∧ (startRowCountUpdater d pre).calls
        = List.replicate pre.length
            (Call.QueryWithOptions (countStatementString d) d.priority)
      ∧ (startRowCountUpdater d pre).returned = false := by
  obtain ⟨d1, h1, h2, h3⟩ := startRowCountUpdater_append d pre (Except.ok 0 :: post) hd hpre
  obtain ⟨d2, k1, _, k3⟩ := startRowCountUpdater_append d pre [] hd hpre
  have hz := startRowCountUpdater_completed (updateRowCount d1 (Except.ok 0)).d post
    (updateRowCount_status_zero d1)
  rw [startRowCountUpdater_cons d1 (Except.ok 0) post h1, hz, h2] at h3
  rw [List.append_nil] at k3
  refine ⟨startRowCountUpdater_completed _ post rfl, startRowCountUpdater_cons d _ post hd,
    ?_, ?_, ?_, ?_, ?_⟩
  · rw [h3]
    simp only [List.replicate_succ']
  · rw [h3]
  · rw [h3]
    exact updateRowCount_status_zero d1
  · rw [k3]
    simp [startRowCountUpdater]
  · rw [k3]
    simp [startRowCountUpdater, k1]

/-- Witness of C15: a fresh deleter polled against the replies 5, an error, 0,
7: three count queries are sent, the loop returns, the status is
statusCompleted. -/
theorem polling_until_zero_witness :
    (fresh "t" "" [] "" "" 0).status ≠ status.statusCompleted
      ∧ (startRowCountUpdater (fresh "t" "" [] "" "" 0)
          ([Except.ok 5, Except.error ⟨"unavailable"⟩] ++ Except.ok 0 :: [Except.ok 7])).calls
        = List.replicate 3 (Call.QueryWithOptions "SELECT COUNT(*) as count FROM `t` " 0)
      ∧ (startRowCountUpdater (fresh "t" "" [] "" "" 0)
          ([Except.ok 5, Except.error ⟨"unavailable"⟩] ++ Except.ok 0 :: [Except.ok 7])).returned
        = true :=
  ⟨by decide,
    (polling_until_zero (fresh "t" "" [] "" "" 0) (by decide)
      [Except.ok 5, Except.error ⟨"unavailable"⟩] [Except.ok 7]
      (by intro r hr; simp at hr; rcases hr with rfl | rfl <;> simp) ⟨"x"⟩).2.2.1,
    (polling_until_zero (fresh "t" "" [] "" "" 0) (by decide)
      [Except.ok 5, Except.error ⟨"unavailable"⟩] [Except.ok 7]
      (by intro r hr; simp at hr; rcases hr with rfl | rfl <;> simp) ⟨"x"⟩).2.2.2.1⟩

/-! ## The count statement -/

theorem append_left_cancel (a x y : String) (h : a ++ x = a ++ y) : x = y := by
  apply String.ext
  have hd := congrArg String.data h
  simp only [String.data_append] at hd
  exact List.append_cancel_left hd

theorem countStatementString_eq (d : deleter) :
    countStatementString d
      = "SELECT COUNT(*) as count FROM `" ++ d.tableName ++ "` "
          ++ getStatementStringSuffix d := by
  simp only [countStatementString, Sprintf_count]

theorem suffix_of_no_filter (d : deleter) :
    getStatementStringSuffix { d with columnValues := [], lower := "", upper := "" } = "" := by
  simp [getStatementStringSuffix]

/-- Counterexample to C16 as stated: for the table "t" with no filter the count
statement that updateRowCount sends is not "SELECT COUNT(*) as count FROM"
followed by the quoted table name: a space follows the closing backquote; with
the column values "a" of column "id", two spaces stand before WHERE. -/
theorem countStatement_has_space :
    (updateRowCount (fresh "t" "" [] "" "" 0) (Except.ok 1)).calls
        = [Call.QueryWithOptions "SELECT COUNT(*) as count FROM `t` " 0]
      ∧ countStatementString (fresh "t" "" [] "" "" 0) ≠ "SELECT COUNT(*) as count FROM `t`"
      ∧ countStatementString (fresh "t" "id" ["a"] "" "" 0)
        = "SELECT COUNT(*) as count FROM `t`  WHERE id IN ('a')"
      ∧ countStatementString (fresh "t" "id" ["a"] "" "" 0)
        ≠ "SELECT COUNT(*) as count FROM `t`" ++
            getStatementStringSuffix (fresh "t" "id" ["a"] "" "" 0) := by
  decide

/-- C16, amended: for every deleter state and every reply, updateRowCount sends
one count query whose statement is "SELECT COUNT(*) as count FROM", the table
name between backquotes, one space, and then getStatementStringSuffix of the
same state; with no filter the statement is that prefix ending in the space. -/
theorem countStatement_sent (d : deleter) (reply : Except error Int) :
    (updateRowCount d reply).calls
        = [Call.QueryWithOptions
            ("SELECT COUNT(*) as count FROM `" ++ d.tableName ++ "` "
              ++ getStatementStringSuffix d) d.priority]
      ∧ (updateRowCount { d with columnValues := [], lower := "", upper := "" } reply).calls
        = [Call.QueryWithOptions
            ("SELECT COUNT(*) as count FROM `" ++ d.tableName ++ "` ") d.priority] := by
  constructor
  · rw [updateRowCount_calls, countStatementString_eq]
  · rw [updateRowCount_calls, countStatementString_eq, suffix_of_no_filter]
    simp

/-- C17, at the failing input: with an empty column and the column values "a"
the suffix is not empty but a WHERE clause with no column name, and the delete
statement carries it; with an empty column and no column values the suffix is
empty whatever the bounds are. -/
theorem empty_column_with_values :
    getStatementStringSuffix (fresh "t" "" ["a"] "" "" 0) = " WHERE  IN ('a')"
      ∧ getStatementStringSuffix (fresh "t" "" ["a"] "" "" 0) ≠ ""
      ∧ getDeleteStatementString (fresh "t" "" ["a"] "" "" 0)
        = "DELETE FROM `t` WHERE  IN ('a')"
      ∧ (∀ d : deleter,
          getStatementStringSuffix { d with column := "", columnValues := [] } = "") := by
  refine ⟨by decide, by decide, by decide, ?_⟩
  intro d
  simp [getStatementStringSuffix]

/-! ## Frame and monotonicity -/

theorem run_frame (d : deleter) (ops : List Op) :
    (run d ops).tableName = d.tableName
      ∧ (run d ops).column = d.column
      ∧ (run d ops).columnValues = d.columnValues
      ∧ (run d ops).lower = d.lower
      ∧ (run d ops).upper = d.upper
      ∧ (run d ops).priority = d.priority := by
  induction ops generalizing d with
  | nil => exact ⟨rfl, rfl, rfl, rfl, rfl, rfl⟩
  | cons op ops ih =>
    obtain ⟨a1, a2, a3, a4, a5, a6⟩ := step_frame d op
    obtain ⟨b1, b2, b3, b4, b5, b6⟩ := ih (step d op)
    exact ⟨b1.trans a1, b2.trans a2, b3.trans a3, b4.trans a4, b5.trans a5, b6.trans a6⟩

/-- C18: the configuration is immutable. After updateRowCount with any reply,
deleteRows with any reply or parentDeletionStarted, and so after any finite
sequence of them, tableName, column, columnValues, lower, upper and priority are
what they were; the two statement builders are functions of the state that
return a string and leave the state as it is. -/
theorem configuration_immutable (d : deleter) (op : Op) (ops : List Op) :
    ((step d op).tableName = d.tableName
        ∧ (step d op).column = d.column
        ∧ (step d op).columnValues = d.columnValues
        ∧ (step d op).lower = d.lower
        ∧ (step d op).upper = d.upper
        ∧ (step d op).priority = d.priority)
      ∧ ((run d ops).tableName = d.tableName
        ∧ (run d ops).column = d.column
        ∧ (run d ops).columnValues = d.columnValues
        ∧ (run d ops).lower = d.lower
        ∧ (run d ops).upper = d.upper
        ∧ (run d ops).priority = d.priority)
      ∧ getStatementStringSuffix (run d ops) = getStatementStringSuffix d
      ∧ getDeleteStatementString (run d ops) = getDeleteStatementString d := by
  obtain ⟨b1, b2, b3, b4, b5, b6⟩ := run_frame d ops
  have hsfx := suffix_of_frame (run d ops) d b2 b3 b4 b5
  refine ⟨step_frame d op, run_frame d ops, hsfx, ?_⟩
  simp only [getDeleteStatementString, b1, hsfx]

/-- C19: the delete and the count query carry the same filter. The delete
statement is "DELETE FROM", the quoted table name and then the suffix of the
state; the statement that updateRowCount sends is "SELECT COUNT(*) as count
FROM", the quoted table name, one space and then the same suffix; and in each
statement the text after that prefix can be nothing but the suffix. -/
theorem count_and_delete_same_filter (d : deleter) (reply : Except error Int) (x : String) :
    (getDeleteStatementString d = "DELETE FROM `" ++ d.tableName ++ "`" ++ x
        ↔ x = getStatementStringSuffix d)
      ∧ ((updateRowCount d reply).calls
          = [Call.QueryWithOptions
              ("SELECT COUNT(*) as count FROM `" ++ d.tableName ++ "` " ++ x) d.priority]
        ↔ x = getStatementStringSuffix d) := by
  have hdel : getDeleteStatementString d
      = "DELETE FROM `" ++ d.tableName ++ "`" ++ getStatementStringSuffix d := by
    simp only [getDeleteStatementString, Sprintf_delete]
  constructor
  · constructor
    · intro h
      rw [hdel] at h
      exact (append_left_cancel _ _ _ h).symm
    · intro h
      rw [h, hdel]
  · rw [updateRowCount_calls, countStatementString_eq]
    constructor
    · intro h
      have hq := (Call.QueryWithOptions.inj (List.cons.inj h).1).1
      exact (append_left_cancel _ _ _ hq).symm
    · intro h
      rw [h]

/-- C20: updateRowCount never lowers the rank of the status, whatever the reply
(an error, zero, or a positive count); a state in statusDeleting,
statusCascadeDeleting or statusCompleted keeps its status under every error and
under every positive count. -/
theorem updateRowCount_never_regresses (d : deleter) (reply : Except error Int) (e : error)
    (count : Int) :
    rank d.status ≤ rank (updateRowCount d reply).d.status
      ∧ (d.status = status.statusDeleting ∨ d.status = status.statusCascadeDeleting
          ∨ d.status = status.statusCompleted →
        (updateRowCount d (Except.error e)).d.status = d.status
          ∧ (0 < count → (updateRowCount d (Except.ok count)).d.status = d.status)) := by
  refine ⟨rank_updateRowCount d reply, ?_⟩
  intro hs
  refine ⟨rfl, ?_⟩
  intro hc
  have hne : count ≠ 0 := by omega
  have hna : d.status ≠ status.statusAnalyzing := by
    rcases hs with h | h | h <;> rw [h] <;> decide
  rw [updateRowCount_status, if_neg hne, if_neg hna]

/-- Witness of C20: a deleter in statusDeleting keeps that status under an error
and under the count 4. -/
theorem updateRowCount_never_regresses_witness :
    (updateRowCount { fresh "t" "" [] "" "" 0 with status := status.statusDeleting }
        (Except.error ⟨"unavailable"⟩)).d.status = status.statusDeleting
      ∧ (updateRowCount { fresh "t" "" [] "" "" 0 with status := status.statusDeleting }
        (Except.ok 4)).d.status = status.statusDeleting :=
  ⟨((updateRowCount_never_regresses
      { fresh "t" "" [] "" "" 0 with status := status.statusDeleting }
      (Except.ok 0) ⟨"unavailable"⟩ 4).2 (Or.inl rfl)).1,
    ((updateRowCount_never_regresses
      { fresh "t" "" [] "" "" 0 with status := status.statusDeleting }
      (Except.ok 0) ⟨"unavailable"⟩ 4).2 (Or.inl rfl)).2 (by decide)⟩

end SpannerDeleter
